import Mathlib

/-!
Shallow embedding of the schema-driven query engine in
`src/databases/mysql.database.ts` (class `MySQL`), together with proofs about
the claims of the specification.

Modelling conventions:
* JavaScript runtime values appearing in records and query options are
  modelled by `JsVal`; database rows are association lists (`Record`).
* The driver boundary (`performQuery`) is modelled by a function
  `exec : String → List Record` carried in a `Ctx`, together with an explicit
  trace of every query string issued.
* JavaScript exceptions (TypeError on property access of `undefined`) are
  modelled with `Except JsErr`.
* In-place mutation of the `options` object (the source mutates
  `options.fields`, `options.limit`, `options.offset`, `options.where` and
  `options.sort`) is modelled by threading an updated `DatabaseFindOptions`
  value through each function.
-/

/-- JavaScript substring test on character lists: `charsHasSub pat s` is
`s.includes(pat)` (membership of `pat` as a contiguous substring). -/
def charsHasSub (pat : List Char) : List Char → Bool
  | [] => pat.isEmpty
  | c :: rest => pat.isPrefixOf (c :: rest) || charsHasSub pat rest

/-- JavaScript `s.includes(pat)`. -/
def jsIncludes (s pat : String) : Bool := charsHasSub pat.data s.data

/-- JavaScript first-occurrence replacement on character lists (JS
`String.prototype.replace` with a string pattern replaces only the first
occurrence, unlike Lean's `String.replace` which replaces all). -/
def charsReplFirst (pat repl : List Char) : List Char → List Char
  | [] => []
  | c :: rest =>
    if pat.isPrefixOf (c :: rest) then repl ++ (c :: rest).drop pat.length
    else c :: charsReplFirst pat repl rest

/-- JavaScript `s.replace(pat, repl)` (first occurrence only). -/
def jsReplaceFirst (s pat repl : String) : String :=
  ⟨charsReplFirst pat.data repl.data s.data⟩

/-- JavaScript runtime values as they appear in rows, query options and
results.  `obj` carries insertion-ordered fields; `arr` is a JS array. -/
inductive JsVal where
  | num (n : Int)
  | str (s : String)
  | null
  | undefined
  | obj (fields : List (String × JsVal))
  | arr (elems : List JsVal)

/-- A database row / plain JS object: insertion-ordered association list. -/
abbrev Record := List (String × JsVal)

/-- JS truthiness. -/
def JsVal.truthy : JsVal → Bool
  | .num n => n != 0
  | .str s => !s.isEmpty
  | .null => false
  | .undefined => false
  | .obj _ => true
  | .arr _ => true

mutual

/-- JS string conversion as performed by template literals (used when a
`where` value is interpolated into query text). -/
def JsVal.toTemplate : JsVal → String
  | .num n => toString n
  | .str s => s
  | .null => "null"
  | .undefined => "undefined"
  | .obj _ => "[object Object]"
  | .arr l => JsVal.listTemplate l

/-- JS `Array.prototype.toString`: elements joined by a comma. -/
def JsVal.listTemplate : List JsVal → String
  | [] => ""
  | [x] => x.toTemplate
  | x :: y :: xs => x.toTemplate ++ "," ++ JsVal.listTemplate (y :: xs)

end

/-- First binding of key `k` in a record, if any. -/
def recFind (r : Record) (k : String) : Option JsVal :=
  (r.find? (fun kv => kv.1 == k)).map (fun kv => kv.2)

/-- JS property read `r[k]`: the bound value, or `undefined`. -/
def recGet (r : Record) (k : String) : JsVal :=
  (recFind r k).getD .undefined

/-- JS property write `r[k] = v`: replaces the first binding of `k` in place,
or appends a new binding. -/
def recSet : Record → String → JsVal → Record
  | [], k, v => [(k, v)]
  | (k', v') :: rest, k, v =>
    if k' == k then (k', v) :: rest else (k', v') :: recSet rest k v

/-- Value extractor when a theorem needs to look inside an object result. -/
def jsGetV : JsVal → String → JsVal
  | .obj r, k => recGet r k
  | _, _ => .undefined

/-- Length of an array value (`0` for non-arrays). -/
def jsArrLen : JsVal → Nat
  | .arr l => l.length
  | _ => 0

/-- `true` iff the value is the number `n`. -/
def jsNumEq (v : JsVal) (n : Int) : Bool :=
  match v with
  | .num m => m == n
  | _ => false

/-- JavaScript exceptions surfaced by the engine (the source has no dedicated
error classes for its own failures: invalid relations, a missing primary key
and a missing `fields` list all surface as TypeErrors thrown by property
access on `undefined`). -/
inductive JsErr where
  | typeError (msg : String)
deriving DecidableEq, Repr

/-- Modelled from the spec: the `WhereOperator` enum is declared in
`src/types/database.types.ts`, which is not part of the sources; §4.2 says
each operator other than `search` "renders as its direct SQL equivalent",
and `search` is replaced by `LIKE` in `find`/`findTotalRecords`. -/
inductive WhereOperator where
  | equals
  | not_equals
  | gt
  | gte
  | lt
  | lte
  | search
deriving DecidableEq, Repr

/-- Modelled from the spec: SQL text of an operator (the raw enum string of
`search` never reaches query text, `find` substitutes `LIKE`). -/
def WhereOperator.toSql : WhereOperator → String
  | .equals => "="
  | .not_equals => "!="
  | .gt => ">"
  | .gte => ">="
  | .lt => "<"
  | .lte => "<="
  | .search => "search"

/-- A `where` condition (`DatabaseWhere` in the source types). -/
structure DatabaseWhere where
  column : String
  operator : WhereOperator
  value : JsVal

/-- A sort condition; the source reads `sort.column` and `sort.operator`
(the sort direction) when emitting `ORDER BY`. -/
structure SortCondition where
  column : String
  operator : String

/-- A schema column as consumed by the query engine; the engine reads only
`column.field` (in `addRelations`' all-columns default). -/
structure DatabaseSchemaColumn where
  field : String

/-- A schema relation, parametric in the type of the resolved child schema
(tied as `DatabaseSchema` below). -/
structure DatabaseSchemaRelationF (α : Type) where
  table : String
  column : String
  org_table : String
  org_column : String
  schema : α

/-- A table schema: `{table, primary_key, columns, relations}`, each relation
carrying the resolved child schema. -/
inductive DatabaseSchema where
  | mk (table : String) (primary_key : String)
       (columns : List DatabaseSchemaColumn)
       (relations : List (DatabaseSchemaRelationF DatabaseSchema))

abbrev DatabaseSchemaRelation := DatabaseSchemaRelationF DatabaseSchema

def DatabaseSchema.table : DatabaseSchema → String
  | .mk t _ _ _ => t

def DatabaseSchema.primary_key : DatabaseSchema → String
  | .mk _ pk _ _ => pk

def DatabaseSchema.columns : DatabaseSchema → List DatabaseSchemaColumn
  | .mk _ _ cs _ => cs

def DatabaseSchema.relations : DatabaseSchema → List DatabaseSchemaRelation
  | .mk _ _ _ rs => rs

/-- The options object consumed by `find`/`findOne`/`findMany`
(`DatabaseFindOneOptions` / `DatabaseFindManyOptions` in the source types;
optional properties are `Option`, an absent/`undefined` `joins` is `false`).
`where_` models the `where` property (`where` is a Lean keyword). -/
structure DatabaseFindOptions where
  schema : DatabaseSchema
  fields : Option (List String)
  where_ : Option (List DatabaseWhere)
  sort : Option (List SortCondition)
  relations : Option (List String)
  joins : Bool
  limit : Option Nat
  offset : Option Nat

/-- The execution context: the driver boundary (`performQuery`, modelled as a
pure row source per query string) and the two configuration lookups the class
performs (`database.defaults.limit`, `database.defaults.relations.limit`). -/
structure Ctx where
  exec : String → List Record
  defaultLimit : Option Nat
  relationLimit : Option Nat

/-- The page cursor object of a `ListResponseObject`. -/
structure PageObject where
  current : Nat
  prev : Option Nat
  next : Option Nat
  first : Nat
  last : Nat
deriving DecidableEq, Repr

/-- The list result shape returned by `findMany`; `ptotal` models the nested
`pagination.total` (the number of returned rows). -/
structure ListResponseObject where
  limit : Nat
  offset : Nat
  total : Nat
  ptotal : Nat
  page : PageObject
  data : List Record

/-- A trace of the query strings issued to the driver, in order. -/
abbrev Trace := List String

namespace Pagination

/-- Modelled from the spec: the `Pagination` helper
(`src/helpers/Pagination.ts`) is not part of the sources; §4.5 defines it as a
pure function of `(limit, offset, total)` with
`current = floor(offset/limit) + 1`. -/
def current (limit offset : Nat) : Nat := offset / limit + 1

/-- Modelled from the spec: `prev = current - 1` if `offset > 0`, else null. -/
def previous (limit offset : Nat) : Option Nat :=
  if 0 < offset then some (current limit offset - 1) else none

/-- Modelled from the spec: `next = current + 1` if `offset + limit < total`,
else null. -/
def next (limit offset total : Nat) : Option Nat :=
  if offset + limit < total then some (current limit offset + 1) else none

/-- Modelled from the spec: `first = 1`. -/
def first (_limit : Nat) : Nat := 1

/-- Modelled from the spec: `last = ceil(total/limit)`. -/
def last (limit total : Nat) : Nat := (total + limit - 1) / limit

end Pagination

namespace MySQL

/-- `find`, lines 178 and 181–185: the fields list after relation filtering
(dropped when `joins` is false) and root-table prefixing of unqualified
entries.  When `joins` is true the prefix loop mutates `options.fields` in
place (the filter branch makes a copy first). -/
def rootFields (opts : DatabaseFindOptions) : Option (List String) :=
  let fs := if opts.joins then opts.fields
            else opts.fields.map (fun l => l.filter (fun f => !(jsIncludes f ".")))
  fs.map (fun l => l.map (fun f =>
    if !(jsIncludes f ".") then opts.schema.table ++ "." ++ f else f))

/-- `find`, line 179: the where list used for the root query (dot-qualified
entries dropped when `joins` is false). -/
def rootWhere (opts : DatabaseFindOptions) : Option (List DatabaseWhere) :=
  if opts.joins then opts.where_
  else opts.where_.map (fun l => l.filter (fun w => !(jsIncludes w.column ".")))

/-- `find`, line 198: one rendered where condition of the root query. -/
def renderCond (table_name : String) (w : DatabaseWhere) : String :=
  (if jsIncludes w.column "." then w.column else table_name ++ "." ++ w.column) ++ " " ++
  (if w.operator == .search then "LIKE" else w.operator.toSql) ++ " " ++
  (if w.value.truthy then
    "'" ++ (if w.operator == .search then "%" else "") ++ w.value.toTemplate ++
    (if w.operator == .search then "%" else "") ++ "'"
  else "")

/-- `find`, line 192: `schema.relations.find(r => r.table === relation)`. -/
def relLookup (s : DatabaseSchema) (relation : String) : Option DatabaseSchemaRelation :=
  s.relations.find? (fun r => r.table == relation)

/-- `find`, lines 190–195: the LEFT JOIN clauses; reading `.table` of a
failed relation lookup throws. -/
def joinsClause (s : DatabaseSchema) : List String → Except JsErr String
  | [] => .ok ""
  | rel :: rest =>
    match relLookup s rel with
    | none => .error (.typeError "Cannot read properties of undefined (reading 'table')")
    | some sr =>
      match joinsClause s rest with
      | .error e => .error e
      | .ok tail =>
        .ok ("LEFT JOIN " ++ sr.table ++ " ON " ++ sr.org_table ++ "." ++ sr.org_column ++
             " = " ++ sr.table ++ "." ++ sr.column ++ " " ++ tail)

/-- `find`, lines 190–195 as a whole: the joins clause when `joins` is true
and `relations` is present and non-empty, empty text otherwise. -/
def rootJoins (opts : DatabaseFindOptions) : Except JsErr String :=
  if opts.joins then
    match opts.relations with
    | some (r :: rs) => joinsClause opts.schema (r :: rs)
    | _ => .ok ""
  else .ok ""

/-- `find` (lines 175–202): builds the root SELECT text; returns the command
together with the options object (whose `fields` were mutated in place when
`joins` is true). -/
def find (opts : DatabaseFindOptions) :
    Except JsErr (String × DatabaseFindOptions) :=
  let table_name := opts.schema.table
  let fields := rootFields opts
  let whereL := rootWhere opts
  let opts1 := if opts.joins then { opts with fields := fields } else opts
  let cmd0 := "SELECT " ++
    (match fields with
     | some (f :: fs) => String.intercalate ", " (f :: fs)
     | _ => "*") ++ " " ++ "FROM " ++ table_name ++ " "
  match rootJoins opts with
  | .error e => .error e
  | .ok jc =>
    let cmd1 := cmd0 ++ jc
    match whereL with
    | some (w :: ws) =>
      .ok (cmd1 ++ "WHERE " ++
           String.intercalate " AND " ((w :: ws).map (renderCond table_name)) ++ " ", opts1)
    | _ => .ok (cmd1, opts1)

/-- `findTotalRecords`, line 213: where conditions kept for the COUNT query
(every dot-qualified entry dropped). -/
def totalWhere (opts : DatabaseFindOptions) : Option (List DatabaseWhere) :=
  opts.where_.map (fun l => l.filter (fun w => !(jsIncludes w.column ".")))

/-- `findTotalRecords`, line 216: one rendered COUNT-query condition (no
table prefixing here, unlike `find`). -/
def renderTotalCond (w : DatabaseWhere) : String :=
  w.column ++ " " ++
  (if w.operator == .search then "LIKE" else w.operator.toSql) ++ " " ++
  (if w.value.truthy then
    "'" ++ (if w.operator == .search then "%" else "") ++ w.value.toTemplate ++
    (if w.operator == .search then "%" else "") ++ "'"
  else "")

/-- `findTotalRecords`, lines 211–217: the COUNT command text. -/
def totalCmd (opts : DatabaseFindOptions) : String :=
  "SELECT COUNT(*) as total FROM " ++ opts.schema.table ++ " " ++
  (match totalWhere opts with
   | some (w :: ws) =>
     "WHERE " ++ String.intercalate " AND " ((w :: ws).map renderTotalCond) ++ " "
   | _ => "")

/-- `findTotalRecords` (lines 208–221): issues the COUNT query and reads
`results[0].total` (a TypeError when no row comes back; MySQL returns
`COUNT(*)` as a nonnegative number, so a numeric cell is required and
converted to `Nat`). -/
def findTotalRecords (ctx : Ctx) (opts : DatabaseFindOptions) :
    Trace × Except JsErr Nat :=
  let cmd := totalCmd opts
  ([cmd],
    match ctx.exec cmd with
    | [] => .error (.typeError "Cannot read properties of undefined (reading 'total')")
    | r :: _ =>
      match recGet r "total" with
      | .num n => .ok n.toNat
      | _ => .error (.typeError "non-numeric COUNT(*) result"))

/-- `findMany`, lines 139–141: `if (!options.limit)` — both an unset and a
zero limit (JS falsiness) are replaced by the configured default
(`database.defaults.limit ?? 20`). -/
def limitDefaulted (ctx : Ctx) (opts : DatabaseFindOptions) : Nat :=
  match opts.limit with
  | none => ctx.defaultLimit.getD 20
  | some 0 => ctx.defaultLimit.getD 20
  | some k => k

/-- `findMany`, lines 143–145: `if (!options.offset) options.offset = 0`. -/
def offsetDefaulted (opts : DatabaseFindOptions) : Nat :=
  opts.offset.getD 0

/-- `findMany`, lines 130–133: sort entries kept for the root ORDER BY
(dot-qualified entries dropped). -/
def sortFiltered (opts : DatabaseFindOptions) : List SortCondition :=
  match opts.sort with
  | none => []
  | some l => l.filter (fun s => !(jsIncludes s.column "."))

/-- `findMany`, lines 135–147: the final list command — the `find` text, the
optional ORDER BY, and LIMIT/OFFSET appended last. -/
def findManyCmd (ctx : Ctx) (opts : DatabaseFindOptions) (cmd0 : String) : String :=
  (if (sortFiltered opts).isEmpty then cmd0
   else cmd0 ++ "ORDER BY " ++
     String.intercalate ", " ((sortFiltered opts).map (fun s => s.column ++ " " ++ s.operator))) ++
  " LIMIT " ++ toString (limitDefaulted ctx opts) ++
  " OFFSET " ++ toString (offsetDefaulted opts)

/-- `findMany` as reached from `addRelations`: the child options literal
carries no `relations` key, so the per-row `addRelations` call inside the
child `findMany` is the identity on every row; this specialisation spells
that out (`findMany_eq_flat_of_no_relations` below proves the agreement). -/
def findManyFlat (ctx : Ctx) (opts : DatabaseFindOptions) :
    Trace × Except JsErr ListResponseObject :=
  match findTotalRecords ctx opts with
  | (tr0, .error e) => (tr0, .error e)
  | (tr0, .ok total) =>
    match find opts with
    | .error e => (tr0, .error e)
    | .ok (cmd0, opts1) =>
      let l := limitDefaulted ctx opts1
      let o := offsetDefaulted opts1
      let cmd := findManyCmd ctx opts1 cmd0
      let rows := ctx.exec cmd
      (tr0 ++ [cmd], .ok {
        limit := l, offset := o, total := total, ptotal := rows.length,
        page := { current := Pagination.current l o,
                  prev := Pagination.previous l o,
                  next := Pagination.next l o total,
                  first := Pagination.first l,
                  last := Pagination.last l total },
        data := rows })

/-- `addRelations`, lines 244–260: the child where list — the mandatory
anchor condition `{column: relation.column, operator: equals, value: anchor}`
first, then (when `options.where` is present) the caller's conditions
qualified with the relation's table prefix, everything having that prefix
stripped (the strip loop runs only inside the `'where' in options` branch). -/
def childWhere (opts : DatabaseFindOptions) (sr : DatabaseSchemaRelation)
    (anchor : JsVal) : List DatabaseWhere :=
  let anchorCond : DatabaseWhere :=
    { column := sr.column, operator := .equals, value := anchor }
  match opts.where_ with
  | none => [anchorCond]
  | some l =>
    (anchorCond :: l.filter (fun w => jsIncludes w.column (sr.schema.table ++ "."))).map
      (fun w => { w with column := jsReplaceFirst w.column (sr.schema.table ++ ".") "" })

/-- `addRelations`, lines 262–268: the child sort list (relation-qualified
entries, prefix stripped). -/
def childSort (opts : DatabaseFindOptions) (sr : DatabaseSchemaRelation) :
    List SortCondition :=
  match opts.sort with
  | none => []
  | some l =>
    (l.filter (fun s => jsIncludes s.column (sr.schema.table ++ "."))).map
      (fun s => { s with column := jsReplaceFirst s.column (sr.schema.table ++ ".") "" })

/-- `addRelations`, lines 230–240: the child fields list —
`options.fields?.filter(...)` is `undefined` (`none`) when no fields were
supplied; otherwise the relation-qualified entries with the prefix stripped,
falling back to all of the child schema's columns when that filter is empty. -/
def childFields (opts : DatabaseFindOptions) (sr : DatabaseSchemaRelation) :
    Option (List String) :=
  opts.fields.map (fun fs =>
    let g := (fs.filter (fun f => jsIncludes f (sr.schema.table ++ "."))).map
      (fun f => jsReplaceFirst f (sr.schema.table ++ ".") "")
    if g.isEmpty then sr.schema.columns.map (fun c => c.field) else g)

/-- `addRelations`, lines 252–268: the in-place mutation of the caller's
`options.where` / `options.sort` performed by the prefix-strip loops (the
filtered sublists alias the caller's arrays, so stripping writes through). -/
def mutateOpts (opts : DatabaseFindOptions) (tbl : String) : DatabaseFindOptions :=
  { opts with
    where_ := opts.where_.map (fun l => l.map (fun w =>
      if jsIncludes w.column (tbl ++ ".") then
        { w with column := jsReplaceFirst w.column (tbl ++ ".") "" }
      else w)),
    sort := opts.sort.map (fun l => l.map (fun s =>
      if jsIncludes s.column (tbl ++ ".") then
        { s with column := jsReplaceFirst s.column (tbl ++ ".") "" }
      else s)) }

/-- `addRelations`, lines 278–285: the options literal passed to the child
`findMany` (no `relations`/`joins` keys, offset 0, the configured relation
fan-out limit). -/
def childOptions (ctx : Ctx) (opts : DatabaseFindOptions)
    (sr : DatabaseSchemaRelation) (fs : List String) (anchor : JsVal) :
    DatabaseFindOptions :=
  { schema := sr.schema, fields := some fs,
    where_ := some (childWhere opts sr anchor),
    sort := some (childSort opts sr), relations := none, joins := false,
    limit := ctx.relationLimit, offset := some 0 }

/-- The nested value stored under the relation key: the child `findMany`
result's `data` array. -/
def relStepVal (ctx : Ctx) (opts : DatabaseFindOptions)
    (sr : DatabaseSchemaRelation) (fs : List String) (anchor : JsVal) :
    Trace × Except JsErr JsVal :=
  match findManyFlat ctx (childOptions ctx opts sr fs anchor) with
  | (tr, .error e) => (tr, .error e)
  | (tr, .ok resp) => (tr, .ok (JsVal.arr (resp.data.map JsVal.obj)))

/-- One iteration of the `addRelations` loop (lines 227–288) for a single
relation name: failed relation lookup throws (reading `.schema` of
`undefined`), an absent fields list throws (reading `.length` of
`undefined`), otherwise the child query runs, the result lands on the record
under the relation key, and the caller's options are mutated by the
prefix-strip loops. -/
def relStep (ctx : Ctx) (opts : DatabaseFindOptions) (relation : String)
    (result : Record) : Trace × Except JsErr (Record × DatabaseFindOptions) :=
  match relLookup opts.schema relation with
  | none => ([], .error (.typeError "Cannot read properties of undefined (reading 'schema')"))
  | some sr =>
    match childFields opts sr with
    | none => ([], .error (.typeError "Cannot read properties of undefined (reading 'length')"))
    | some fs =>
      match relStepVal ctx opts sr fs (recGet result sr.org_column) with
      | (tr, .error e) => (tr, .error e)
      | (tr, .ok v) => (tr, .ok (recSet result relation v, mutateOpts opts sr.schema.table))

/-- The `for (const relation of options.relations)` loop of `addRelations`. -/
def addRelLoop (ctx : Ctx) :
    List String → DatabaseFindOptions → Record →
    Trace × Except JsErr (Record × DatabaseFindOptions)
  | [], opts, result => ([], .ok (result, opts))
  | rel :: rest, opts, result =>
    match relStep ctx opts rel result with
    | (tr, .error e) => (tr, .error e)
    | (tr, .ok (result', opts')) =>
      match addRelLoop ctx rest opts' result' with
      | (tr2, res) => (tr ++ tr2, res)

/-- `addRelations` (lines 223–291): an absent record yields `{}`; an absent
or empty `relations` list leaves the record untouched; otherwise the loop
runs.  The returned options carry the in-place mutations. -/
def addRelations (ctx : Ctx) (opts : DatabaseFindOptions)
    (result : Option Record) :
    Trace × Except JsErr (Record × DatabaseFindOptions) :=
  match result with
  | none => ([], .ok ([], opts))
  | some r =>
    match opts.relations with
    | some (rel :: rest) => addRelLoop ctx (rel :: rest) opts r
    | _ => ([], .ok (r, opts))

/-- `findMany`, lines 153–155: the per-row relation-expansion loop (options
mutations made by one row's expansion are seen by the next row's). -/
def findManyRows (ctx : Ctx) :
    List Record → DatabaseFindOptions →
    Trace × Except JsErr (List Record × DatabaseFindOptions)
  | [], opts => ([], .ok ([], opts))
  | r :: rs, opts =>
    match addRelations ctx opts (some r) with
    | (tr, .error e) => (tr, .error e)
    | (tr, .ok (r', opts')) =>
      match findManyRows ctx rs opts' with
      | (tr2, .error e) => (tr ++ tr2, .error e)
      | (tr2, .ok (rs', opts'')) => (tr ++ tr2, .ok (r' :: rs', opts''))

/-- `findMany` (lines 125–173): COUNT first, then the list select (ORDER BY
and LIMIT/OFFSET appended), relation expansion per row, then the list result
with its pagination metadata. -/
def findMany (ctx : Ctx) (opts : DatabaseFindOptions) :
    Trace × Except JsErr ListResponseObject :=
  match findTotalRecords ctx opts with
  | (tr0, .error e) => (tr0, .error e)
  | (tr0, .ok total) =>
    match find opts with
    | .error e => (tr0, .error e)
    | .ok (cmd0, opts1) =>
      let l := limitDefaulted ctx opts1
      let o := offsetDefaulted opts1
      let cmd := findManyCmd ctx opts1 cmd0
      let rows := ctx.exec cmd
      match findManyRows ctx rows { opts1 with limit := some l, offset := some o } with
      | (tr2, .error e) => (tr0 ++ [cmd] ++ tr2, .error e)
      | (tr2, .ok (rows', _)) =>
        (tr0 ++ [cmd] ++ tr2, .ok {
          limit := l, offset := o, total := total, ptotal := rows'.length,
          page := { current := Pagination.current l o,
                    prev := Pagination.previous l o,
                    next := Pagination.next l o total,
                    first := Pagination.first l,
                    last := Pagination.last l total },
          data := rows' })

/-- `findOne` (lines 106–119): the `find` text plus ` LIMIT 1`; with `joins`
false the single row (or `undefined` for no match) goes through
`addRelations`, with `joins` true the raw row — `undefined` when absent — is
returned as is. -/
def findOne (ctx : Ctx) (opts : DatabaseFindOptions) :
    Trace × Except JsErr JsVal :=
  match find opts with
  | .error e => ([], .error e)
  | .ok (cmd0, opts1) =>
    let cmd := cmd0 ++ " LIMIT 1"
    let rows := ctx.exec cmd
    if opts1.joins then
      ([cmd], .ok ((rows.head?.map JsVal.obj).getD .undefined))
    else
      match addRelations ctx opts1 rows.head? with
      | (tr, .error e) => (cmd :: tr, .error e)
      | (tr, .ok (r, _)) => (cmd :: tr, .ok (.obj r))

/-- `getSchema`, line 64. -/
def describeCmd (t : String) : String := "DESCRIBE " ++ t

/-- `getSchema`, line 80. -/
def relationsCmd (t : String) : String :=
  "SELECT TABLE_NAME as 'table', COLUMN_NAME as 'column', REFERENCED_TABLE_NAME as 'org_table', REFERENCED_COLUMN_NAME as 'org_column' FROM INFORMATION_SCHEMA.KEY_COLUMN_USAGE WHERE REFERENCED_TABLE_NAME = '" ++ t ++ "';"

/-- `getSchema`, line 86. -/
def relationBackCmd (t : String) : String :=
  "SELECT REFERENCED_TABLE_NAME as 'table', REFERENCED_COLUMN_NAME as 'column', TABLE_NAME as 'org_table', COLUMN_NAME as 'org_column' FROM INFORMATION_SCHEMA.KEY_COLUMN_USAGE WHERE TABLE_NAME = '" ++ t ++ "' AND REFERENCED_TABLE_NAME IS NOT NULL;"

/-- JS strict equality of a runtime value against a string literal. -/
def jsStrictEqStr (v : JsVal) (s : String) : Bool :=
  match v with
  | .str t => t == s
  | _ => false

/-- JS `v === null`. -/
def jsIsNull : JsVal → Bool
  | .null => true
  | _ => false

/-- A column as produced by `getSchema` from one `DESCRIBE` row (lines
66–78); the catalog row's cells are dynamic values. -/
structure IntrospectedColumn where
  field : JsVal
  type : JsVal
  nullable : Bool
  required : Bool
  primary_key : Bool
  unique_key : Bool
  foreign_key : Bool
  default : JsVal
  extra : JsVal

/-- `getSchema`, lines 66–78: mapping of one `DESCRIBE` row. -/
def introspectColumn (row : Record) : IntrospectedColumn :=
  { field := recGet row "Field", type := recGet row "Type",
    nullable := jsStrictEqStr (recGet row "Null") "YES",
    required := jsStrictEqStr (recGet row "Null") "NO",
    primary_key := jsStrictEqStr (recGet row "Key") "PRI",
    unique_key := jsStrictEqStr (recGet row "Key") "UNI",
    foreign_key := jsStrictEqStr (recGet row "Key") "MUL",
    default := recGet row "Default", extra := recGet row "Extra" }

/-- The full column list `getSchema` builds for a table. -/
def schemaColumns (ctx : Ctx) (t : String) : List IntrospectedColumn :=
  (ctx.exec (describeCmd t)).map introspectColumn

/-- The schema object `getSchema` returns (dynamic cells kept as runtime
values). -/
structure IntrospectedSchema where
  table : String
  primary_key : JsVal
  columns : List IntrospectedColumn
  relations : List Record

/-- `getSchema` (lines 63–100): three catalog queries; the returned
`primary_key` is `columns.find(c => c.primary_key).field`, a TypeError when
no column is flagged `PRI`. -/
def getSchema (ctx : Ctx) (t : String) : Trace × Except JsErr IntrospectedSchema :=
  let cols := schemaColumns ctx t
  let rels := (ctx.exec (relationsCmd t)).filter (fun row => !(jsIsNull (recGet row "table")))
  let relsBack := (ctx.exec (relationBackCmd t)).filter (fun row => !(jsIsNull (recGet row "table")))
  ([describeCmd t, relationsCmd t, relationBackCmd t],
   match cols.find? (fun c => c.primary_key) with
   | none => .error (.typeError "Cannot read properties of undefined (reading 'field')")
   | some c => .ok { table := t, primary_key := c.field, columns := cols,
                     relations := rels ++ relsBack })

end MySQL

/-! ### Concrete fixtures

A small users/orders universe (the spec's Scenario A/B shape:
`users(id PK, name)`, `orders(id PK, user_id FK → users.id, amount)`), with
driver behaviours (`Ctx.exec`) that answer exactly the query strings the
engine emits for each scenario, the way MySQL would on the corresponding
data. -/

def ordersSchema : DatabaseSchema :=
  .mk "orders" "id" [⟨"id"⟩, ⟨"user_id"⟩, ⟨"amount"⟩] []

/-- `users` with its backward relation to `orders` (the catalog row
`{table: orders, column: user_id, org_table: users, org_column: id}`). -/
def usersSchema : DatabaseSchema :=
  .mk "users" "id" [⟨"id"⟩, ⟨"name"⟩] [⟨"orders", "user_id", "users", "id", ordersSchema⟩]

def srA : DatabaseSchemaRelation := ⟨"orders", "user_id", "users", "id", ordersSchema⟩

def userRow : Record := [("id", .num 1), ("name", .str "alice")]

def ordersRows : List Record :=
  [[("id", .num 10), ("user_id", .num 1), ("amount", .num 200)],
   [("id", .num 11), ("user_id", .num 2), ("amount", .num 50)],
   [("id", .num 12), ("user_id", .num 1), ("amount", .num 75)]]

/-- The orders of user 1 — the rows the spec's Scenario A expects under
`record.orders`. -/
def ordersOf1 : List Record :=
  ordersRows.filter (fun r => jsNumEq (recGet r "user_id") 1)

/-- Scenario A options (`findOne` on `users`, id = 1, expand `orders`), with
an explicitly supplied empty fields list. -/
def optsA : DatabaseFindOptions :=
  { schema := usersSchema, fields := some [],
    where_ := some [⟨"id", .equals, .num 1⟩], sort := none,
    relations := some ["orders"], joins := false, limit := none, offset := none }

def rootCmdA : String := "SELECT * FROM users WHERE users.id = '1'  LIMIT 1"
def countCmdA : String := "SELECT COUNT(*) as total FROM orders WHERE user_id = '1' "
def selCmdA : String :=
  "SELECT orders.id, orders.user_id, orders.amount FROM orders WHERE orders.user_id = '1'  LIMIT 10 OFFSET 0"

/-- Driver behaviour for Scenario A: answers the three emitted query strings
the way MySQL would on `userRow`/`ordersRows`. -/
def ctxA : Ctx :=
  { exec := fun q =>
      if q = rootCmdA then [userRow]
      else if q = countCmdA then [[("total", .num 2)]]
      else if q = selCmdA then ordersOf1
      else [],
    defaultLimit := none, relationLimit := some 10 }

/-- The expanded Scenario A record. -/
def recA1 : Record :=
  [("id", .num 1), ("name", .str "alice"), ("orders", .arr (ordersOf1.map .obj))]

def trA : Trace := [countCmdA, selCmdA]

/-- Scenario B-style options for the idempotency counterexample: a
relation-qualified filter `orders.amount > 100` (and a relation-qualified
fields entry so that expansion does not throw). -/
def opts5 : DatabaseFindOptions :=
  { schema := usersSchema, fields := some ["orders.amount"],
    where_ := some [⟨"orders.amount", .gt, .num 100⟩], sort := none,
    relations := some ["orders"], joins := false, limit := none, offset := none }

/-- `opts5` after the first expansion's in-place prefix strip: the caller's
where entry now reads `amount` and no longer matches the `orders.` filter. -/
def opts5m : DatabaseFindOptions :=
  { schema := usersSchema, fields := some ["orders.amount"],
    where_ := some [⟨"amount", .gt, .num 100⟩], sort := none,
    relations := some ["orders"], joins := false, limit := none, offset := none }

def count5a : String := "SELECT COUNT(*) as total FROM orders WHERE user_id = '1' AND amount > '100' "
def sel5a : String :=
  "SELECT orders.amount FROM orders WHERE orders.user_id = '1' AND orders.amount > '100'  LIMIT 10 OFFSET 0"
def count5b : String := "SELECT COUNT(*) as total FROM orders WHERE user_id = '1' "
def sel5b : String :=
  "SELECT orders.amount FROM orders WHERE orders.user_id = '1'  LIMIT 10 OFFSET 0"

/-- Driver behaviour for the idempotency counterexample: user 1 has two
orders (amounts 200 and 75), one of them above 100; the filtered and the
unfiltered child selects therefore return different row sets. -/
def ctx5 : Ctx :=
  { exec := fun q =>
      if q = count5a then [[("total", .num 1)]]
      else if q = sel5a then [[("amount", .num 200)]]
      else if q = count5b then [[("total", .num 2)]]
      else if q = sel5b then [[("amount", .num 200)], [("amount", .num 75)]]
      else [],
    defaultLimit := none, relationLimit := some 10 }

/-- The record after the first expansion (one filtered child row). -/
def rec5a : Record :=
  [("id", .num 1), ("name", .str "alice"), ("orders", .arr [.obj [("amount", .num 200)]])]

/-- The record after the second expansion (the filter is gone: two rows). -/
def rec5c : Record :=
  [("id", .num 1), ("name", .str "alice"),
   ("orders", .arr [.obj [("amount", .num 200)], .obj [("amount", .num 75)]])]

/-- A driver that returns no rows for any query. -/
def ctxEmpty : Ctx := { exec := fun _ => [], defaultLimit := none, relationLimit := none }

/-- Options with `joins = true` and nothing else (for the no-match path). -/
def optsJ : DatabaseFindOptions :=
  { schema := usersSchema, fields := none, where_ := none, sort := none,
    relations := none, joins := true, limit := none, offset := none }

/-- Options requesting a relation name absent from `schema.relations`. -/
def optsG : DatabaseFindOptions :=
  { schema := usersSchema, fields := none, where_ := none, sort := none,
    relations := some ["ghost"], joins := false, limit := none, offset := none }

def rootCmdG : String := "SELECT * FROM users  LIMIT 1"

/-- Driver for the invalid-relation scenario with a matching root row. -/
def ctxG : Ctx :=
  { exec := fun q => if q = rootCmdG then [userRow] else [],
    defaultLimit := none, relationLimit := none }

/-- `optsG` with `joins = true`. -/
def optsGJ : DatabaseFindOptions :=
  { schema := usersSchema, fields := none, where_ := none, sort := none,
    relations := some ["ghost"], joins := true, limit := none, offset := none }

def totalCmdU : String := "SELECT COUNT(*) as total FROM users "
def selCmd4 : String := "SELECT * FROM users  LIMIT 10 OFFSET 20"
def selCmd8 : String := "SELECT * FROM users  LIMIT 20 OFFSET 0"

/-- Driver reporting 25 users and no matching page rows (Scenario C). -/
def ctx4 : Ctx :=
  { exec := fun q => if q = totalCmdU then [[("total", .num 25)]] else [],
    defaultLimit := none, relationLimit := none }

/-- Scenario C options: `limit = 10`, `offset = 20` on a 25-row table. -/
def opts4 : DatabaseFindOptions :=
  { schema := usersSchema, fields := none, where_ := none, sort := none,
    relations := none, joins := false, limit := some 10, offset := some 20 }

/-- Options with the invalid `limit = 0`. -/
def opts8 : DatabaseFindOptions :=
  { schema := usersSchema, fields := none, where_ := none, sort := none,
    relations := none, joins := false, limit := some 0, offset := none }

def tr4 : Trace := [totalCmdU, selCmd4]

/-- The Scenario C response: `{current: 3, prev: 2, next: null, first: 1,
last: 3}`. -/
def resp4 : ListResponseObject :=
  { limit := 10, offset := 20, total := 25, ptotal := 0,
    page := ⟨3, some 2, none, 1, 3⟩, data := [] }

def tr8 : Trace := [totalCmdU, selCmd8]

/-- The response to `opts8` (`limit = 0`): the call succeeds, with the
default limit 20 substituted. -/
def resp8 : ListResponseObject :=
  { limit := 20, offset := 0, total := 25, ptotal := 0,
    page := ⟨1, none, some 2, 1, 2⟩, data := [] }

/-- Relation-qualified where conditions for the COUNT-invariance witness. -/
def extra3 : List DatabaseWhere := [⟨"orders.amount", .gt, .num 100⟩]

/-- Options exercising every filter of `find`/`findMany` with `joins` false:
dotted and undotted fields, where and sort entries. -/
def opts1W : DatabaseFindOptions :=
  { schema := usersSchema, fields := some ["id", "orders.amount"],
    where_ := some [⟨"name", .equals, .str "x"⟩, ⟨"orders.amount", .gt, .num 1⟩],
    sort := some [⟨"id", "ASC"⟩, ⟨"orders.id", "DESC"⟩],
    relations := none, joins := false, limit := none, offset := none }

/-- Two `DESCRIBE` rows both flagged `PRI` (a composite primary key). -/
def descRows7 : List Record :=
  [[("Field", .str "a"), ("Type", .str "int"), ("Null", .str "NO"),
    ("Key", .str "PRI"), ("Default", .null), ("Extra", .str "")],
   [("Field", .str "b"), ("Type", .str "int"), ("Null", .str "NO"),
    ("Key", .str "PRI"), ("Default", .null), ("Extra", .str "")]]

/-- Catalog driver for a table `t2` whose `DESCRIBE` lists two `PRI`
columns. -/
def ctx7 : Ctx :=
  { exec := fun q => if q = MySQL.describeCmd "t2" then descRows7 else [],
    defaultLimit := none, relationLimit := none }

/-- One `DESCRIBE` row flagged `PRI`, one not. -/
def descRows7W : List Record :=
  [[("Field", .str "id"), ("Type", .str "int"), ("Null", .str "NO"),
    ("Key", .str "PRI"), ("Default", .null), ("Extra", .str "")],
   [("Field", .str "name"), ("Type", .str "text"), ("Null", .str "YES"),
    ("Key", .str ""), ("Default", .null), ("Extra", .str "")]]

/-- Catalog driver for a well-formed table `t1` (single primary key). -/
def ctx7W : Ctx :=
  { exec := fun q => if q = MySQL.describeCmd "t1" then descRows7W else [],
    defaultLimit := none, relationLimit := none }

/-- The introspected `id` column of `t1`. -/
def col7W : MySQL.IntrospectedColumn :=
  { field := .str "id", type := .str "int", nullable := false, required := true,
    primary_key := true, unique_key := false, foreign_key := false,
    default := .null, extra := .str "" }

/-! ### Helper lemmas -/

theorem map_id_of_mem {α : Type} (f : α → α) :
    ∀ (l : List α), (∀ x ∈ l, f x = x) → l.map f = l
  | [], _ => rfl
  | x :: xs, h => by
    simp only [List.map_cons]
    exact congrArg₂ _ (h x (by simp)) (map_id_of_mem f xs (fun y hy => h y (by simp [hy])))

theorem charsReplFirst_eq_self (pat repl : List Char) :
    ∀ (s : List Char), charsHasSub pat s = false → charsReplFirst pat repl s = s
  | [], _ => rfl
  | c :: rest, h => by
    unfold charsHasSub at h
    simp only [Bool.or_eq_false_iff] at h
    unfold charsReplFirst
    rw [h.1]
    simp only [Bool.false_eq_true, if_false]
    exact congrArg _ (charsReplFirst_eq_self pat repl rest h.2)

theorem jsReplaceFirst_eq_self (s pat repl : String) (h : jsIncludes s pat = false) :
    jsReplaceFirst s pat repl = s := by
  obtain ⟨d⟩ := s
  unfold jsReplaceFirst
  exact congrArg String.mk (charsReplFirst_eq_self _ _ _ h)

/-- With `joins` false, `find` never throws and never mutates the options. -/
theorem find_not_joins (opts : DatabaseFindOptions) (h : opts.joins = false) :
    ∃ cmd, MySQL.find opts = .ok (cmd, opts) := by
  have hj : MySQL.rootJoins opts = .ok "" := by simp [MySQL.rootJoins, h]
  unfold MySQL.find
  rw [hj]
  simp only [h, Bool.false_eq_true, if_false]
  rcases MySQL.rootWhere opts with _ | (_ | ⟨w, ws⟩)
  · exact ⟨_, rfl⟩
  · exact ⟨_, rfl⟩
  · exact ⟨_, rfl⟩

/-- `find` mutates only `options.fields`: every other component of the
returned options equals the input's. -/
theorem find_ok_components (opts : DatabaseFindOptions) (cmd : String)
    (opts1 : DatabaseFindOptions) (h : MySQL.find opts = .ok (cmd, opts1)) :
    opts1.schema = opts.schema ∧ opts1.where_ = opts.where_ ∧
    opts1.sort = opts.sort ∧ opts1.relations = opts.relations ∧
    opts1.joins = opts.joins ∧ opts1.limit = opts.limit ∧
    opts1.offset = opts.offset := by
  unfold MySQL.find at h
  rcases hrj : MySQL.rootJoins opts with e | jc <;> rw [hrj] at h
  · simp at h
  · rcases hw : MySQL.rootWhere opts with _ | (_ | ⟨w, ws⟩) <;> rw [hw] at h <;>
    · simp only [Except.ok.injEq, Prod.mk.injEq] at h
      rw [← h.2]
      by_cases hb : opts.joins <;> simp [hb]

/-- C1: with `joins = false`, every field of the emitted root query text is
the root table name, a dot and a dot-free column; every where entry of the
root query is dot-free (rendered with the root-table prefix); every sort
entry of `findMany`'s ORDER BY is dot-free; and `find` succeeds without
mutating the options (so the emitted text is built exactly from these
filtered lists). -/
theorem claim1_root_query_scoped (opts : DatabaseFindOptions) (h : opts.joins = false) :
    (∀ f ∈ (MySQL.rootFields opts).getD [],
       ∃ g, jsIncludes g "." = false ∧ f = opts.schema.table ++ "." ++ g) ∧
    (∀ w ∈ (MySQL.rootWhere opts).getD [], jsIncludes w.column "." = false) ∧
    (∀ s ∈ MySQL.sortFiltered opts, jsIncludes s.column "." = false) ∧
    (∃ cmd, MySQL.find opts = .ok (cmd, opts)) := by
  refine ⟨?_, ?_, ?_, find_not_joins opts h⟩
  · intro f hf
    rcases hof : opts.fields with _ | l
    · simp [MySQL.rootFields, h, hof] at hf
    · simp only [MySQL.rootFields, h, hof, if_false, Option.map_some', Option.getD_some,
        Bool.false_eq_true] at hf
      obtain ⟨g, hg, rfl⟩ := List.mem_map.1 hf
      obtain ⟨-, hp⟩ := List.mem_filter.1 hg
      rw [Bool.not_eq_true'] at hp
      exact ⟨g, hp, by simp [hp]⟩
  · intro w hw
    rcases how : opts.where_ with _ | l
    · simp [MySQL.rootWhere, h, how] at hw
    · simp only [MySQL.rootWhere, h, how, if_false, Option.map_some', Option.getD_some,
        Bool.false_eq_true] at hw
      obtain ⟨-, hp⟩ := List.mem_filter.1 hw
      rwa [Bool.not_eq_true'] at hp
  · intro s hs
    rcases hos : opts.sort with _ | l
    · simp [MySQL.sortFiltered, hos] at hs
    · simp only [MySQL.sortFiltered, hos] at hs
      obtain ⟨-, hp⟩ := List.mem_filter.1 hs
      rwa [Bool.not_eq_true'] at hp

/-- Witness for C1 at a concrete options value mixing dotted and undotted
fields, where and sort entries. -/
theorem claim1_witness :
    (∀ f ∈ (MySQL.rootFields opts1W).getD [],
       ∃ g, jsIncludes g "." = false ∧ f = opts1W.schema.table ++ "." ++ g) ∧
    (∀ w ∈ (MySQL.rootWhere opts1W).getD [], jsIncludes w.column "." = false) ∧
    (∀ s ∈ MySQL.sortFiltered opts1W, jsIncludes s.column "." = false) ∧
    (∃ cmd, MySQL.find opts1W = .ok (cmd, opts1W)) :=
  claim1_root_query_scoped opts1W rfl

/-- Inversion for a successful `findMany`: the reported total is the
`findTotalRecords` result on the same options, the reported limit/offset are
the defaulted ones, and every page cursor is the corresponding `Pagination`
helper applied to the response's own limit, offset and total. -/
theorem findMany_ok_pieces (ctx : Ctx) (opts : DatabaseFindOptions) (tr : Trace)
    (resp : ListResponseObject) (h : MySQL.findMany ctx opts = (tr, .ok resp)) :
    (MySQL.findTotalRecords ctx opts).2 = .ok resp.total ∧
    resp.limit = MySQL.limitDefaulted ctx opts ∧
    resp.offset = MySQL.offsetDefaulted opts ∧
    resp.page.current = Pagination.current resp.limit resp.offset ∧
    resp.page.prev = Pagination.previous resp.limit resp.offset ∧
    resp.page.next = Pagination.next resp.limit resp.offset resp.total ∧
    resp.page.first = 1 ∧
    resp.page.last = Pagination.last resp.limit resp.total := by
  unfold MySQL.findMany at h
  rcases htot : MySQL.findTotalRecords ctx opts with ⟨tr0, tote⟩
  rw [htot] at h
  rcases tote with e | total
  · exact absurd h (by simp)
  · rcases hf : MySQL.find opts with e | ⟨cmd0, opts1⟩ <;> rw [hf] at h
    · exact absurd h (by simp)
    · obtain ⟨-, -, -, -, -, hlim, hoff⟩ := find_ok_components opts cmd0 opts1 hf
      have hlimc : MySQL.limitDefaulted ctx opts1 = MySQL.limitDefaulted ctx opts := by
        unfold MySQL.limitDefaulted; rw [hlim]
      have hoffc : MySQL.offsetDefaulted opts1 = MySQL.offsetDefaulted opts := by
        unfold MySQL.offsetDefaulted; rw [hoff]
      dsimp only [] at h
      rcases hrows : MySQL.findManyRows ctx
          (ctx.exec (MySQL.findManyCmd ctx opts1 cmd0))
          { opts1 with limit := some (MySQL.limitDefaulted ctx opts1),
                       offset := some (MySQL.offsetDefaulted opts1) } with
        ⟨tr2, e2 | ⟨rows2, oend⟩⟩ <;> rw [hrows] at h
      · exact absurd h (by simp)
      · simp only [Prod.mk.injEq, Except.ok.injEq] at h
        rw [← h.2]
        exact ⟨by simp, by simp [hlimc], by simp [hoffc], rfl, rfl, rfl, rfl, rfl⟩

/-- `Pagination.last` is the ceiling of `total / limit`: the least page count
whose pages of size `limit` cover `total` rows. -/
theorem pagination_last_bounds (l t : Nat) (hl : 0 < l) :
    t ≤ Pagination.last l t * l ∧ (0 < t → (Pagination.last l t - 1) * l < t) := by
  unfold Pagination.last
  constructor
  · have h2 : (t + l - 1) / l < (t + l - 1) / l + 1 := Nat.lt_succ_self _
    rw [Nat.div_lt_iff_lt_mul hl] at h2
    rw [Nat.succ_mul] at h2
    generalize hq : (t + l - 1) / l * l = m at h2 ⊢
    omega
  · intro ht
    rcases hq : (t + l - 1) / l with _ | q'
    · simpa using ht
    · have h1 : (t + l - 1) / l * l ≤ t + l - 1 := Nat.div_mul_le_self _ _
      rw [hq, Nat.succ_mul] at h1
      simp only [Nat.succ_sub_one]
      generalize hm : q' * l = m at h1 ⊢
      omega

/-- C4: for every successful `findMany` with a positive (defaulted) limit,
the returned page object satisfies `current = floor(offset/limit) + 1`,
`first = 1`, `prev = current - 1` when `offset > 0` and null otherwise,
`next = current + 1` exactly when `offset + limit < total` and null
otherwise, and `last = ceil(total/limit)` (characterised as the least page
count covering `total`); Scenario C (limit 10, offset 20, total 25) is the
witness. -/
theorem claim4_pagination_arith (ctx : Ctx) (opts : DatabaseFindOptions)
    (tr : Trace) (resp : ListResponseObject)
    (h : MySQL.findMany ctx opts = (tr, .ok resp)) (hl : 0 < resp.limit) :
    resp.page.current = resp.offset / resp.limit + 1 ∧
    resp.page.first = 1 ∧
    resp.page.prev = (if 0 < resp.offset then some (resp.offset / resp.limit) else none) ∧
    (resp.page.next = none ↔ resp.total ≤ resp.offset + resp.limit) ∧
    (resp.page.next = some (resp.offset / resp.limit + 2) ↔
       resp.offset + resp.limit < resp.total) ∧
    resp.total ≤ resp.page.last * resp.limit ∧
    (0 < resp.total → (resp.page.last - 1) * resp.limit < resp.total) := by
  obtain ⟨-, -, -, pc, pp, pn, pf, pl⟩ := findMany_ok_pieces ctx opts tr resp h
  obtain ⟨b1, b2⟩ := pagination_last_bounds resp.limit resp.total hl
  refine ⟨?_, ?_, ?_, ?_, ?_, ?_, ?_⟩
  · rw [pc]; rfl
  · rw [pf]
  · rw [pp]; unfold Pagination.previous Pagination.current; simp
  · rw [pn]; unfold Pagination.next; split <;> simp <;> omega
  · rw [pn]; unfold Pagination.next Pagination.current; split <;> simp <;> omega
  · rw [pl]; exact b1
  · rw [pl]; exact b2

/-- Witness for C4: Scenario C — `limit = 10, offset = 20, total = 25` gives
`{current: 3, prev: 2, next: null, first: 1, last: 3}`. -/
theorem claim4_witness :
    MySQL.findMany ctx4 opts4 = (tr4, .ok resp4) ∧
    resp4.page = ⟨3, some 2, none, 1, 3⟩ ∧
    resp4.page.current = resp4.offset / resp4.limit + 1 ∧
    (resp4.page.next = none ↔ resp4.total ≤ resp4.offset + resp4.limit) ∧
    resp4.total ≤ resp4.page.last * resp4.limit := by
  have hp := claim4_pagination_arith ctx4 opts4 tr4 resp4 rfl (by decide)
  exact ⟨rfl, rfl, hp.1, hp.2.2.2.1, hp.2.2.2.2.2.1⟩

/-- C8 (amended): `limit = 0` is treated exactly like an unset limit — both
are replaced by the configured default (`database.defaults.limit ?? 20`) and
the call proceeds (no `InvalidPagination` failure exists in the code); an
unset offset defaults to 0; and LIMIT/OFFSET are appended last to the list
query text, which is also the second query issued. -/
theorem claim8_limit_defaults (ctx : Ctx) (opts : DatabaseFindOptions)
    (cmd0 : String) (opts1 : DatabaseFindOptions) (tr : Trace)
    (resp : ListResponseObject)
    (hf : MySQL.find opts = .ok (cmd0, opts1))
    (h : MySQL.findMany ctx opts = (tr, .ok resp)) :
    resp.limit = MySQL.limitDefaulted ctx opts ∧
    resp.offset = MySQL.offsetDefaulted opts ∧
    (opts.limit = some 0 → resp.limit = ctx.defaultLimit.getD 20) ∧
    (opts.limit = none → resp.limit = ctx.defaultLimit.getD 20) ∧
    (opts.offset = none → resp.offset = 0) ∧
    (∃ p tr2, MySQL.findManyCmd ctx opts1 cmd0 =
        p ++ " LIMIT " ++ toString (MySQL.limitDefaulted ctx opts) ++
        " OFFSET " ++ toString (MySQL.offsetDefaulted opts) ∧
      tr = MySQL.totalCmd opts :: MySQL.findManyCmd ctx opts1 cmd0 :: tr2) := by
  obtain ⟨-, hlim, hoff, -, -, -, -, -⟩ := findMany_ok_pieces ctx opts tr resp h
  obtain ⟨-, -, -, -, -, hl1, ho1⟩ := find_ok_components opts cmd0 opts1 hf
  have hlimc : MySQL.limitDefaulted ctx opts1 = MySQL.limitDefaulted ctx opts := by
    unfold MySQL.limitDefaulted; rw [hl1]
  have hoffc : MySQL.offsetDefaulted opts1 = MySQL.offsetDefaulted opts := by
    unfold MySQL.offsetDefaulted; rw [ho1]
  refine ⟨hlim, hoff, ?_, ?_, ?_, ?_⟩
  · intro h0; rw [hlim]; unfold MySQL.limitDefaulted; rw [h0]
  · intro h0; rw [hlim]; unfold MySQL.limitDefaulted; rw [h0]
  · intro h0; rw [hoff]; unfold MySQL.offsetDefaulted; rw [h0]; rfl
  · -- trace shape: the COUNT query first, then the list command with
    -- LIMIT/OFFSET appended last
    have hshape : ∃ tr2,
        tr = MySQL.totalCmd opts :: MySQL.findManyCmd ctx opts1 cmd0 :: tr2 := by
      unfold MySQL.findMany at h
      rcases htot : MySQL.findTotalRecords ctx opts with ⟨tr0, tote⟩
      have htr0 : tr0 = [MySQL.totalCmd opts] :=
        (congrArg Prod.fst htot).symm.trans rfl
      rw [htot] at h
      rcases tote with e | total
      · exact absurd h (by simp)
      · rw [hf] at h
        dsimp only [] at h
        rcases hrows : MySQL.findManyRows ctx
            (ctx.exec (MySQL.findManyCmd ctx opts1 cmd0))
            { opts1 with limit := some (MySQL.limitDefaulted ctx opts1),
                         offset := some (MySQL.offsetDefaulted opts1) } with
          ⟨tr2, e2 | ⟨rows2, oend⟩⟩ <;> rw [hrows] at h
        · exact absurd h (by simp)
        · simp only [Prod.mk.injEq, Except.ok.injEq] at h
          refine ⟨tr2, ?_⟩
          rw [← h.1, htr0]
          simp
    obtain ⟨tr2, hTr⟩ := hshape
    refine ⟨(if (MySQL.sortFiltered opts1).isEmpty then cmd0
             else cmd0 ++ "ORDER BY " ++ String.intercalate ", "
               ((MySQL.sortFiltered opts1).map (fun s => s.column ++ " " ++ s.operator))),
            tr2, ?_, hTr⟩
    unfold MySQL.findManyCmd
    rw [hlimc, hoffc]

/-- Counterexample to C8 as stated: with `limit = 0` the call does not fail —
`findMany` succeeds and substitutes the configured default (20), because
`if (!options.limit)` treats 0 as unset; no `InvalidPagination` failure
exists in the code. -/
theorem claim8_cex :
    opts8.limit = some 0 ∧
    (MySQL.findMany ctx4 opts8).2.toOption.map ListResponseObject.limit = some 20 :=
  ⟨rfl, rfl⟩

/-- Witness for C8 (amended) at `opts8` (`limit = some 0`, `offset` unset). -/
theorem claim8_witness :
    resp8.limit = MySQL.limitDefaulted ctx4 opts8 ∧
    (opts8.limit = some 0 → resp8.limit = ctx4.defaultLimit.getD 20) ∧
    (opts8.offset = none → resp8.offset = 0) ∧
    (∃ p tr2, MySQL.findManyCmd ctx4 opts8 "SELECT * FROM users " =
        p ++ " LIMIT " ++ toString (MySQL.limitDefaulted ctx4 opts8) ++
        " OFFSET " ++ toString (MySQL.offsetDefaulted opts8) ∧
      tr8 = MySQL.totalCmd opts8 :: MySQL.findManyCmd ctx4 opts8 "SELECT * FROM users " :: tr2) := by
  have hw := claim8_limit_defaults ctx4 opts8 "SELECT * FROM users " opts8 tr8 resp8 rfl rfl
  exact ⟨hw.1, hw.2.2.1, hw.2.2.2.2.1, hw.2.2.2.2.2⟩

/-- C3: `findTotalRecords` builds its COUNT query from only the dot-free
where conditions; appending relation-qualified conditions leaves the COUNT
command text unchanged; and a successful `findMany` reports exactly the
`findTotalRecords` result as its total. -/
theorem claim3_total_root_scoped (ctx : Ctx) (opts : DatabaseFindOptions)
    (extra : List DatabaseWhere) (tr : Trace) (resp : ListResponseObject)
    (hx : ∀ w ∈ extra, jsIncludes w.column "." = true)
    (h : MySQL.findMany ctx opts = (tr, .ok resp)) :
    (MySQL.findTotalRecords ctx opts).2 = .ok resp.total ∧
    (∀ w ∈ (MySQL.totalWhere opts).getD [], jsIncludes w.column "." = false) ∧
    MySQL.totalCmd { opts with where_ := some (opts.where_.getD [] ++ extra) } =
      MySQL.totalCmd opts := by
  refine ⟨(findMany_ok_pieces ctx opts tr resp h).1, ?_, ?_⟩
  · intro w hw
    rcases how : opts.where_ with _ | l
    · simp [MySQL.totalWhere, how] at hw
    · simp only [MySQL.totalWhere, how, Option.map_some', Option.getD_some] at hw
      obtain ⟨-, hp⟩ := List.mem_filter.1 hw
      rwa [Bool.not_eq_true'] at hp
  · have hfe : extra.filter (fun w => !(jsIncludes w.column ".")) = [] := by
      rw [List.filter_eq_nil_iff]
      intro a ha
      simp [hx a ha]
    unfold MySQL.totalCmd MySQL.totalWhere
    rcases how : opts.where_ with _ | l
    · simp [how, hfe]
    · simp [how, List.filter_append, hfe]

/-- Witness for C3: a relation-qualified `orders.amount > 100` condition
does not change the COUNT command of the Scenario C query. -/
theorem claim3_witness :
    (MySQL.findTotalRecords ctx4 opts4).2 = .ok resp4.total ∧
    MySQL.totalCmd { opts4 with where_ := some (opts4.where_.getD [] ++ extra3) } =
      MySQL.totalCmd opts4 := by
  have h := claim3_total_root_scoped ctx4 opts4 extra3 tr4 resp4 (by decide) rfl
  exact ⟨h.1, h.2.2⟩

/-- C7 (amended): when at least one `DESCRIBE` row is flagged `PRI`,
`getSchema` succeeds and its `primary_key` is the field of the *first*
flagged column (there may be more than one — see the counterexample); when
no column is flagged, the `.field` read on a failed `find` throws (the
failure the spec's taxonomy names `NoPrimaryKey`). -/
theorem claim7_primary_key (ctx : Ctx) (t : String) :
    (∀ c, (MySQL.schemaColumns ctx t).find? (fun c => c.primary_key) = some c →
       ∃ s, (MySQL.getSchema ctx t).2 = .ok s ∧ s.primary_key = c.field ∧
            s.columns = MySQL.schemaColumns ctx t) ∧
    ((MySQL.schemaColumns ctx t).find? (fun c => c.primary_key) = none →
       (MySQL.getSchema ctx t).2 =
         .error (.typeError "Cannot read properties of undefined (reading 'field')")) ∧
    (((MySQL.schemaColumns ctx t).find? (fun c => c.primary_key)).isSome ↔
       ∃ c, c ∈ MySQL.schemaColumns ctx t ∧ c.primary_key = true) := by
  refine ⟨?_, ?_, ?_⟩
  · intro c hc
    refine ⟨{ table := t, primary_key := c.field, columns := MySQL.schemaColumns ctx t,
              relations :=
                ((ctx.exec (MySQL.relationsCmd t)).filter
                    (fun row => !(MySQL.jsIsNull (recGet row "table")))) ++
                ((ctx.exec (MySQL.relationBackCmd t)).filter
                    (fun row => !(MySQL.jsIsNull (recGet row "table")))) },
            ?_, rfl, rfl⟩
    unfold MySQL.getSchema
    dsimp only []
    rw [hc]
  · intro hn
    unfold MySQL.getSchema
    dsimp only []
    rw [hn]
  · rw [List.find?_isSome]

/-- Counterexample to C7 as stated: a composite primary key — `DESCRIBE`
returning two `PRI` rows — makes `getSchema` succeed with *two* columns
flagged as primary, so "exactly one column has the primary-key flag or the
call fails" is false. -/
theorem claim7_cex :
    (MySQL.getSchema ctx7 "t2").2.toOption.map
      (fun s => ((s.columns.filter (fun c => c.primary_key)).length, s.primary_key)) =
      some (2, .str "a") := rfl

/-- Witness for C7 (amended) on a well-formed single-PK table. -/
theorem claim7_witness :
    ∃ s, (MySQL.getSchema ctx7W "t1").2 = .ok s ∧ s.primary_key = .str "id" := by
  obtain ⟨s, hs, hpk, -⟩ := (claim7_primary_key ctx7W "t1").1 col7W rfl
  exact ⟨s, hs, hpk⟩

/-- C9 (amended): when the root select matches no row, `findOne` returns the
empty object if `joins` is false (the `addRelations` guard), but returns
`undefined` — not the empty object — when `joins` is true; when a row
matches with `joins` true, that raw row is returned. -/
theorem claim9_findOne_empty (ctx : Ctx) (opts : DatabaseFindOptions)
    (cmd0 : String) (opts1 : DatabaseFindOptions)
    (hf : MySQL.find opts = .ok (cmd0, opts1)) :
    (ctx.exec (cmd0 ++ " LIMIT 1") = [] → opts.joins = false →
       MySQL.findOne ctx opts = ([cmd0 ++ " LIMIT 1"], .ok (.obj []))) ∧
    (ctx.exec (cmd0 ++ " LIMIT 1") = [] → opts.joins = true →
       MySQL.findOne ctx opts = ([cmd0 ++ " LIMIT 1"], .ok .undefined)) ∧
    (∀ r rs, opts.joins = true → ctx.exec (cmd0 ++ " LIMIT 1") = r :: rs →
       MySQL.findOne ctx opts = ([cmd0 ++ " LIMIT 1"], .ok (.obj r))) := by
  obtain ⟨-, -, -, -, hj, -, -⟩ := find_ok_components opts cmd0 opts1 hf
  refine ⟨?_, ?_, ?_⟩
  · intro he hjf
    unfold MySQL.findOne
    rw [hf]
    dsimp only []
    rw [he, hj, hjf]
    simp [MySQL.addRelations]
  · intro he hjt
    unfold MySQL.findOne
    rw [hf]
    dsimp only []
    rw [he, hj, hjt]
    simp
  · intro r rs hjt he
    unfold MySQL.findOne
    rw [hf]
    dsimp only []
    rw [he, hj, hjt]
    simp

/-- Counterexample to C9 as stated: with `joins = true` and no matching row,
`findOne` returns `undefined` (`results[0]` of an empty result), not the
empty object. -/
theorem claim9_cex :
    (MySQL.findOne ctxEmpty optsJ).2 = .ok JsVal.undefined ∧
    JsVal.undefined ≠ JsVal.obj [] :=
  ⟨rfl, fun h => JsVal.noConfusion h⟩

/-- Witness for C9 (amended): empty result with `joins` false gives the
empty object; with `joins` true it gives `undefined`. -/
theorem claim9_witness :
    MySQL.findOne ctxEmpty opts8 = (["SELECT * FROM users  LIMIT 1"], .ok (.obj [])) ∧
    MySQL.findOne ctxEmpty optsJ = (["SELECT * FROM users  LIMIT 1"], .ok .undefined) := by
  have h1 := (claim9_findOne_empty ctxEmpty opts8 "SELECT * FROM users " opts8 rfl).1 rfl rfl
  have h2 := (claim9_findOne_empty ctxEmpty optsJ "SELECT * FROM users " optsJ rfl).2.1 rfl rfl
  exact ⟨h1, h2⟩

/-- C10: when no `fields` option is supplied, relation expansion reads
`.length` of `undefined` and throws, rather than defaulting to all child
columns; the all-columns default is reached exactly when a fields list is
present but holds no entry qualified with the relation's table prefix. -/
theorem claim10_fields_throw (ctx : Ctx) (opts : DatabaseFindOptions)
    (rec : Record) (rel : String) (rest : List String)
    (sr : DatabaseSchemaRelation) (fs : List String) :
    (opts.fields = none → opts.relations = some (rel :: rest) →
       MySQL.relLookup opts.schema rel = some sr →
       (MySQL.addRelations ctx opts (some rec)).2 =
         .error (.typeError "Cannot read properties of undefined (reading 'length')")) ∧
    (opts.fields = some fs →
       (∀ f ∈ fs, jsIncludes f (sr.schema.table ++ ".") = false) →
       MySQL.childFields opts sr = some (sr.schema.columns.map (fun c => c.field))) := by
  constructor
  · intro hfn hrel hsr
    simp [MySQL.addRelations, MySQL.addRelLoop, MySQL.relStep, MySQL.childFields,
      hrel, hsr, hfn]
  · intro hfs hall
    have hemp : fs.filter (fun f => jsIncludes f (sr.schema.table ++ ".")) = [] :=
      List.filter_eq_nil_iff.2 (fun a ha => by simp [hall a ha])
    unfold MySQL.childFields
    rw [hfs]
    simp only [Option.map_some']
    rw [hemp]
    rfl

/-- Witness for C10: Scenario A without a fields list throws; with the empty
fields list the child query defaults to all of `orders`' columns. -/
theorem claim10_witness :
    (MySQL.addRelations ctxA { optsA with fields := none } (some userRow)).2 =
      .error (.typeError "Cannot read properties of undefined (reading 'length')") ∧
    MySQL.childFields optsA srA = some ["id", "user_id", "amount"] := by
  have ha := (claim10_fields_throw ctxA { optsA with fields := none }
    userRow "orders" [] srA []).1 rfl rfl rfl
  have hb := (claim10_fields_throw ctxA optsA userRow "orders" [] srA []).2 rfl
    (fun f hf => absurd hf (by simp))
  exact ⟨ha, by rw [hb]; rfl⟩

/-- C2 (amended): `addRelations` always places the mandatory anchor
condition `{column: relation.column, operator: equals, value:
parent[org_column]}` at the head of the child query's where list (for any
caller-supplied filters), and in the users/orders Scenario A — with a fields
list supplied, here the empty one — `findOne` populates `record.orders` with
exactly the orders rows whose `user_id` equals the parent's `id`; without a
fields list the expansion throws instead (see the counterexample and C10). -/
theorem claim2_anchor_injected (opts : DatabaseFindOptions)
    (sr : DatabaseSchemaRelation) (result : Record)
    (hc : jsIncludes sr.column (sr.schema.table ++ ".") = false) :
    (MySQL.childWhere opts sr (recGet result sr.org_column)).head? =
      some { column := sr.column, operator := .equals,
             value := recGet result sr.org_column } ∧
    (MySQL.findOne ctxA optsA).2 = .ok (.obj recA1) ∧
    jsGetV (.obj recA1) "orders" = .arr (ordersOf1.map .obj) := by
  refine ⟨?_, rfl, rfl⟩
  unfold MySQL.childWhere
  rcases opts.where_ with _ | l
  · rfl
  · simp only [List.map_cons, List.head?_cons, Option.some.injEq]
    simp [jsReplaceFirst_eq_self _ _ _ hc]

/-- Counterexample to C2 as stated: the spec's Scenario A supplies no
`fields` option, and on that exact input `findOne` throws (reading `.length`
of `undefined`) instead of returning the record with `orders` populated. -/
theorem claim2_cex :
    (MySQL.findOne ctxA { optsA with fields := none }).2 =
      .error (.typeError "Cannot read properties of undefined (reading 'length')") := rfl

/-- Witness for C2 (amended) at the Scenario A relation and parent row. -/
theorem claim2_witness :
    (MySQL.childWhere optsA srA (recGet userRow srA.org_column)).head? =
      some { column := "user_id", operator := .equals, value := .num 1 } ∧
    jsGetV (.obj recA1) "orders" = .arr (ordersOf1.map .obj) := by
  have h := claim2_anchor_injected optsA srA userRow (by decide)
  exact ⟨h.1.trans rfl, h.2.2⟩

/-- A relation lookup over a relation set that never carries the name comes
back `undefined`. -/
theorem relLookup_eq_none (s : DatabaseSchema) (rel : String)
    (hv : ∀ sr ∈ s.relations, sr.table ≠ rel) : MySQL.relLookup s rel = none := by
  unfold MySQL.relLookup
  rw [List.find?_eq_none]
  intro sr hsr
  simp [hv sr hsr]

/-- The join-clause loop throws as soon as any requested relation name fails
to resolve. -/
theorem joinsClause_err (s : DatabaseSchema) :
    ∀ (rels : List String) (rel : String), rel ∈ rels →
      MySQL.relLookup s rel = none →
      MySQL.joinsClause s rels =
        .error (.typeError "Cannot read properties of undefined (reading 'table')")
  | [], rel, hm, _ => absurd hm (by simp)
  | a :: rest, rel, hm, hn => by
    unfold MySQL.joinsClause
    rcases hla : MySQL.relLookup s a with _ | sr
    · rfl
    · have hmr : rel ∈ rest := by
        rcases List.mem_cons.1 hm with h1 | h1
        · subst h1; rw [hn] at hla; exact absurd hla (by simp)
        · exact h1
      rw [joinsClause_err s rest rel hmr hn]

/-- Inversion of a successful `relStep`. -/
theorem relStep_ok_inv (ctx : Ctx) (opts : DatabaseFindOptions) (rel : String)
    (rec : Record) (tr : Trace) (rec1 : Record) (opts1 : DatabaseFindOptions)
    (h : MySQL.relStep ctx opts rel rec = (tr, .ok (rec1, opts1))) :
    ∃ sr fs v, MySQL.relLookup opts.schema rel = some sr ∧
      MySQL.childFields opts sr = some fs ∧
      MySQL.relStepVal ctx opts sr fs (recGet rec sr.org_column) = (tr, .ok v) ∧
      rec1 = recSet rec rel v ∧ opts1 = MySQL.mutateOpts opts sr.schema.table := by
  unfold MySQL.relStep at h
  rcases hl : MySQL.relLookup opts.schema rel with _ | sr <;> rw [hl] at h
  · exact absurd h (by simp)
  · dsimp only [] at h
    rcases hcf : MySQL.childFields opts sr with _ | fs <;> rw [hcf] at h
    · exact absurd h (by simp)
    · dsimp only [] at h
      rcases hv : MySQL.relStepVal ctx opts sr fs (recGet rec sr.org_column) with
        ⟨trv, ev | v⟩ <;> rw [hv] at h
      · exact absurd h (by simp)
      · simp only [Prod.mk.injEq, Except.ok.injEq] at h
        exact ⟨sr, fs, v, rfl, hcf, by rw [hv, h.1], h.2.1.symm, h.2.2.symm⟩

/-- The options mutation performed by one relation step never touches the
schema. -/
theorem mutateOpts_schema (opts : DatabaseFindOptions) (tbl : String) :
    (MySQL.mutateOpts opts tbl).schema = opts.schema := rfl

/-- The `addRelations` loop fails whenever some requested relation cannot be
resolved against the (never-mutated) schema. -/
theorem addRelLoop_err_of_invalid (ctx : Ctx) :
    ∀ (rels : List String) (opts : DatabaseFindOptions) (rec : Record)
      (rel : String), rel ∈ rels → MySQL.relLookup opts.schema rel = none →
      ((MySQL.addRelLoop ctx rels opts rec).2).isOk = false
  | [], _, _, rel, hm, _ => absurd hm (by simp)
  | a :: rest, opts, rec, rel, hm, hn => by
    unfold MySQL.addRelLoop
    rcases hstep : MySQL.relStep ctx opts a rec with ⟨tra, e | ⟨rec1, opts1⟩⟩
    · rfl
    · obtain ⟨sr, fs, v, hl, -, -, -, hopts1⟩ :=
        relStep_ok_inv ctx opts a rec tra rec1 opts1 hstep
      have hmr : rel ∈ rest := by
        rcases List.mem_cons.1 hm with h1 | h1
        · subst h1; rw [hn] at hl; exact absurd hl (by simp)
        · exact h1
      have hn1 : MySQL.relLookup opts1.schema rel = none := by
        rw [hopts1, mutateOpts_schema]; exact hn
      have herr := addRelLoop_err_of_invalid ctx rest opts1 rec1 rel hmr hn1
      dsimp only []
      rcases hloop : MySQL.addRelLoop ctx rest opts1 rec1 with ⟨tr2, res⟩
      rw [hloop] at herr
      simpa using herr

/-- C6 (amended): a requested relation name absent from `schema.relations`
makes the operation throw — with `joins` true inside `find`'s join emission,
before any query is issued (trace empty); with `joins` false inside relation
expansion, provided a root record matched — and no query is ever issued for
that relation (with the invalid name first, the trace holds exactly the root
select).  The failure is the TypeError of the failed lookup, which the
spec's taxonomy names `InvalidRelation`.  When `joins` is false and no root
row matches, expansion is skipped and the call succeeds (see the
counterexample). -/
theorem claim6_invalid_relation (ctx : Ctx) (opts : DatabaseFindOptions)
    (rel : String) (rels : List String)
    (hr : opts.relations = some rels) (hm : rel ∈ rels)
    (hv : ∀ sr ∈ opts.schema.relations, sr.table ≠ rel) :
    (opts.joins = true →
       MySQL.findOne ctx opts =
         ([], .error (.typeError "Cannot read properties of undefined (reading 'table')"))) ∧
    (∀ cmd0 opts1 rrow rrest, opts.joins = false →
       MySQL.find opts = .ok (cmd0, opts1) →
       ctx.exec (cmd0 ++ " LIMIT 1") = rrow :: rrest →
       ((MySQL.findOne ctx opts).2).isOk = false ∧
       (rels.head? = some rel → (MySQL.findOne ctx opts).1 = [cmd0 ++ " LIMIT 1"])) := by
  have hnone : MySQL.relLookup opts.schema rel = none :=
    relLookup_eq_none _ _ hv
  rcases rels with _ | ⟨r0, rs0⟩
  · exact absurd hm (by simp)
  constructor
  · intro hjt
    have hjc := joinsClause_err opts.schema (r0 :: rs0) rel hm hnone
    have hrj : MySQL.rootJoins opts =
        .error (.typeError "Cannot read properties of undefined (reading 'table')") := by
      unfold MySQL.rootJoins
      rw [hjt, hr]
      dsimp only []
      rw [hjc]
      rfl
    have hfe : MySQL.find opts =
        .error (.typeError "Cannot read properties of undefined (reading 'table')") := by
      unfold MySQL.find
      rw [hrj]
    unfold MySQL.findOne
    rw [hfe]
  · intro cmd0 opts1 rrow rrest hjf hfok hexec
    obtain ⟨cmd', hcc⟩ := find_not_joins opts hjf
    rw [hfok] at hcc
    simp only [Except.ok.injEq, Prod.mk.injEq] at hcc
    obtain ⟨hcmd, hopts1⟩ := hcc
    subst hcmd
    subst hopts1
    unfold MySQL.findOne
    rw [hfok]
    dsimp only []
    rw [hexec, hjf]
    simp only [Bool.false_eq_true, if_false, List.head?_cons]
    unfold MySQL.addRelations
    rw [hr]
    dsimp only []
    have herr := addRelLoop_err_of_invalid ctx (r0 :: rs0) opts1 rrow rel hm hnone
    constructor
    · rcases hloop : MySQL.addRelLoop ctx (r0 :: rs0) opts1 rrow with ⟨trl, rl⟩
      rw [hloop] at herr
      rcases rl with e | ok
      · rfl
      · simp [Except.isOk, Except.toBool] at herr
    · intro hhead
      simp only [List.head?_cons, Option.some.injEq] at hhead
      subst hhead
      unfold MySQL.addRelLoop MySQL.relStep
      rw [hnone]

/-- Counterexample to C6 as stated ("for every options ... fails"): with
`joins` false and a root select matching no row, `findOne` on an invalid
relation name succeeds with the empty object — expansion is skipped before
the relation name is ever looked up. -/
theorem claim6_cex :
    optsG.relations = some ["ghost"] ∧
    (MySQL.findOne ctxEmpty optsG).2 = .ok (.obj []) :=
  ⟨rfl, rfl⟩

/-- Witness for C6 (amended): the `ghost` relation makes `findOne` fail with
an empty trace when `joins` is true, and fail after exactly the root select
when `joins` is false and a row matched. -/
theorem claim6_witness :
    MySQL.findOne ctxG optsGJ =
      ([], .error (.typeError "Cannot read properties of undefined (reading 'table')")) ∧
    ((MySQL.findOne ctxG optsG).2).isOk = false ∧
    (MySQL.findOne ctxG optsG).1 = [rootCmdG] := by
  have hvG : ∀ sr ∈ optsGJ.schema.relations, sr.table ≠ "ghost" := by
    intro sr hsr
    simp only [optsGJ, usersSchema, DatabaseSchema.relations, List.mem_singleton] at hsr
    subst hsr
    decide
  have h1 := (claim6_invalid_relation ctxG optsGJ "ghost" ["ghost"] rfl (by simp) hvG).1 rfl
  have h2 := (claim6_invalid_relation ctxG optsG "ghost" ["ghost"] rfl (by simp)
    hvG).2 "SELECT * FROM users " optsG userRow [] rfl rfl rfl
  exact ⟨h1, h2.1, h2.2 rfl⟩

/-- Writing a key then reading it back gives the written value. -/
theorem recFind_set_self (r : Record) (k : String) (v : JsVal) :
    recFind (recSet r k v) k = some v := by
  induction r with
  | nil => simp [recSet, recFind]
  | cons kv rest ih =>
    obtain ⟨k', v'⟩ := kv
    cases hbe : (k' == k) with
    | true => simp [recSet, hbe, recFind, List.find?]
    | false =>
      unfold recSet
      rw [hbe]
      simp only [Bool.false_eq_true, if_false]
      unfold recFind at ih ⊢
      simp [List.find?, hbe, ih]

/-- Writing one key leaves every other key's binding unchanged. -/
theorem recFind_set_ne (r : Record) (k : String) (v : JsVal) (k' : String)
    (h : k' ≠ k) : recFind (recSet r k v) k' = recFind r k' := by
  induction r with
  | nil =>
    simp only [recSet, recFind, List.find?]
    rw [show ((k, v).1 == k') = false from beq_eq_false_iff_ne.2 h.symm]
  | cons kv rest ih =>
    obtain ⟨k1, v1⟩ := kv
    cases hbe : (k1 == k) with
    | true =>
      have hk1 : k1 = k := by simpa using hbe
      unfold recSet
      rw [hbe]
      simp only [if_true]
      unfold recFind
      simp only [List.find?]
      rw [show (k1 == k') = false from beq_eq_false_iff_ne.2 (hk1 ▸ h.symm)]
    | false =>
      unfold recSet
      rw [hbe]
      simp only [Bool.false_eq_true, if_false]
      unfold recFind at ih ⊢
      simp only [List.find?]
      cases hbe' : (k1 == k') <;> simp [hbe', ih]

/-- Writing a value a key already holds is a no-op. -/
theorem recSet_of_find (r : Record) (k : String) (v : JsVal)
    (h : recFind r k = some v) : recSet r k v = r := by
  induction r with
  | nil => simp [recFind] at h
  | cons kv rest ih =>
    obtain ⟨k1, v1⟩ := kv
    cases hbe : (k1 == k) with
    | true =>
      unfold recFind at h
      simp only [List.find?, hbe] at h
      simp only [Option.map_some', Option.some.injEq] at h
      unfold recSet
      rw [hbe]
      simp [h]
    | false =>
      unfold recFind at h
      simp only [List.find?, hbe] at h
      unfold recSet
      rw [hbe]
      simp only [Bool.false_eq_true, if_false, List.cons.injEq, true_and]
      exact ih h

/-- The expansion loop writes only at the requested relation names: every
other key's binding survives unchanged. -/
theorem addRelLoop_preserves (ctx : Ctx) :
    ∀ (rels : List String) (opts : DatabaseFindOptions) (rec : Record)
      (tr : Trace) (rec1 : Record) (opts1 : DatabaseFindOptions) (k : String),
      MySQL.addRelLoop ctx rels opts rec = (tr, .ok (rec1, opts1)) →
      k ∉ rels → recFind rec1 k = recFind rec k
  | [], opts, rec, tr, rec1, opts1, k, h, _ => by
    unfold MySQL.addRelLoop at h
    simp only [Prod.mk.injEq, Except.ok.injEq] at h
    rw [← h.2.1]
  | a :: rest, opts, rec, tr, rec1, opts1, k, h, hk => by
    unfold MySQL.addRelLoop at h
    rcases hstep : MySQL.relStep ctx opts a rec with ⟨tra, e | ⟨recm, optsm⟩⟩ <;>
      rw [hstep] at h
    · exact absurd h (by simp)
    · dsimp only [] at h
      rcases hloop : MySQL.addRelLoop ctx rest optsm recm with ⟨tr2, res⟩
      rw [hloop] at h
      simp only [Prod.mk.injEq] at h
      rw [h.2] at hloop
      obtain ⟨sr, fs, v, -, -, -, hrecm, -⟩ :=
        relStep_ok_inv ctx opts a rec tra recm optsm hstep
      have h1 : recFind rec1 k = recFind recm k :=
        addRelLoop_preserves ctx rest optsm recm tr2 rec1 opts1 k hloop
          (fun hmem => hk (by simp [hmem]))
      have h2 : recFind recm k = recFind rec k := by
        rw [hrecm]
        exact recFind_set_ne rec a v k (fun he => hk (by simp [he]))
      rw [h1, h2]

/-- When no where/sort entry carries the relation-table prefix, the in-place
prefix-strip mutation is the identity on the options. -/
theorem mutateOpts_id (opts : DatabaseFindOptions) (tbl : String)
    (hw : ∀ w ∈ opts.where_.getD [], jsIncludes w.column (tbl ++ ".") = false)
    (hs : ∀ s ∈ opts.sort.getD [], jsIncludes s.column (tbl ++ ".") = false) :
    MySQL.mutateOpts opts tbl = opts := by
  unfold MySQL.mutateOpts
  obtain ⟨sch, f, w, s, r, j, l, o⟩ := opts
  simp only [] at hw hs ⊢
  have hw' : Option.map (fun lw => lw.map (fun wc =>
      if jsIncludes wc.column (tbl ++ ".") = true then
        { wc with column := jsReplaceFirst wc.column (tbl ++ ".") "" }
      else wc)) w = w := by
    rcases w with _ | lw
    · rfl
    · simp only [Option.map_some', Option.some.injEq]
      refine map_id_of_mem _ lw (fun x hx => ?_)
      rw [hw x (by simpa using hx)]
      simp
  have hs' : Option.map (fun ls => ls.map (fun sc =>
      if jsIncludes sc.column (tbl ++ ".") = true then
        { sc with column := jsReplaceFirst sc.column (tbl ++ ".") "" }
      else sc)) s = s := by
    rcases s with _ | ls
    · rfl
    · simp only [Option.map_some', Option.some.injEq]
      refine map_id_of_mem _ ls (fun x hx => ?_)
      rw [hs x (by simpa using hx)]
      simp
  rw [hw', hs']

/-- Idempotency of the expansion loop under the no-qualified-filter
hypotheses: when each step's options mutation is the identity and no
relation name collides with an anchor column, running the loop again on its
own output reproduces it exactly (same trace, same record, same options). -/
theorem addRelLoop_idem (ctx : Ctx) :
    ∀ (rels : List String) (opts : DatabaseFindOptions) (rec : Record)
      (tr : Trace) (rec1 : Record) (opts1 : DatabaseFindOptions),
      rels.Nodup →
      (∀ rel ∈ rels, ∀ sr, MySQL.relLookup opts.schema rel = some sr →
         MySQL.mutateOpts opts sr.schema.table = opts ∧
         ∀ rel' ∈ rels, sr.org_column ≠ rel') →
      MySQL.addRelLoop ctx rels opts rec = (tr, .ok (rec1, opts1)) →
      opts1 = opts ∧
      MySQL.addRelLoop ctx rels opts rec1 = (tr, .ok (rec1, opts))
  | [], opts, rec, tr, rec1, opts1, _, _, h => by
    unfold MySQL.addRelLoop at h ⊢
    simp only [Prod.mk.injEq, Except.ok.injEq] at h
    obtain ⟨htr, hrec, hopts⟩ := h
    exact ⟨hopts.symm, by rw [← htr]⟩
  | a :: rest, opts, rec, tr, rec1, opts1, hnd, hH, h => by
    unfold MySQL.addRelLoop at h
    rcases hstep : MySQL.relStep ctx opts a rec with ⟨tra, e | ⟨recm, optsm⟩⟩ <;>
      rw [hstep] at h
    · exact absurd h (by simp)
    · dsimp only [] at h
      rcases hloop : MySQL.addRelLoop ctx rest optsm recm with ⟨tr2, res⟩
      rw [hloop] at h
      simp only [Prod.mk.injEq] at h
      obtain ⟨htr, hres⟩ := h
      rw [hres] at hloop
      obtain ⟨sr, fs, v, hl, hcf, hval, hrecm, hoptsm⟩ :=
        relStep_ok_inv ctx opts a rec tra recm optsm hstep
      obtain ⟨hmut, horg⟩ := hH a (by simp) sr hl
      have hoptsm' : optsm = opts := by rw [hoptsm, hmut]
      rw [hoptsm'] at hloop
      have hnds := List.nodup_cons.1 hnd
      have hHr : ∀ rel ∈ rest, ∀ sr', MySQL.relLookup opts.schema rel = some sr' →
          MySQL.mutateOpts opts sr'.schema.table = opts ∧
          ∀ rel' ∈ rest, sr'.org_column ≠ rel' := by
        intro rel hmr sr' hsr'
        obtain ⟨m1, m2⟩ := hH rel (by simp [hmr]) sr' hsr'
        exact ⟨m1, fun rel' hr' => m2 rel' (by simp [hr'])⟩
      obtain ⟨hopts1, hloop2⟩ :=
        addRelLoop_idem ctx rest opts recm tr2 rec1 opts1 hnds.2 hHr hloop
      have hGet : recGet rec1 sr.org_column = recGet rec sr.org_column := by
        have h1 : recFind rec1 sr.org_column = recFind recm sr.org_column :=
          addRelLoop_preserves ctx rest opts recm tr2 rec1 opts1 sr.org_column hloop
            (fun hmem => horg sr.org_column (by simp [hmem]) rfl)
        have h2 : recFind recm sr.org_column = recFind rec sr.org_column := by
          rw [hrecm]
          exact recFind_set_ne rec a v sr.org_column (horg a (by simp))
        unfold recGet
        rw [h1, h2]
      have hvfind : recFind rec1 a = some v := by
        have h1 : recFind recm a = some v := by
          rw [hrecm]; exact recFind_set_self rec a v
        have h2 : recFind rec1 a = recFind recm a :=
          addRelLoop_preserves ctx rest opts recm tr2 rec1 opts1 a hloop hnds.1
        rw [h2, h1]
      have hstep2 : MySQL.relStep ctx opts a rec1 = (tra, .ok (rec1, opts)) := by
        unfold MySQL.relStep
        rw [hl]
        dsimp only []
        rw [hcf]
        dsimp only []
        rw [hGet, hval]
        dsimp only []
        rw [recSet_of_find rec1 a v hvfind, hmut]
      refine ⟨hopts1, ?_⟩
      unfold MySQL.addRelLoop
      rw [hstep2]
      dsimp only []
      rw [hloop2]
      dsimp only []
      rw [← htr]

/-- C5 (amended): relation expansion is idempotent provided the caller's
`where`/`sort` lists carry no entry qualified with any requested relation's
table prefix (and no relation name collides with an anchor column): a first
successful expansion leaves the options unchanged, and expanding its output
again reproduces the same record, trace and options.  Without that proviso
the first expansion strips the prefixes from the caller's options in place,
so the second expansion drops those filters and can differ — see the
counterexample. -/
theorem claim5_expansion_idem (ctx : Ctx) (opts : DatabaseFindOptions)
    (rec rec1 : Record) (rels : List String) (tr : Trace)
    (opts1 : DatabaseFindOptions)
    (hr : opts.relations = some rels) (hnd : rels.Nodup)
    (hW : ∀ rel ∈ rels, ∀ sr, MySQL.relLookup opts.schema rel = some sr →
        (∀ w ∈ opts.where_.getD [], jsIncludes w.column (sr.schema.table ++ ".") = false) ∧
        (∀ s ∈ opts.sort.getD [], jsIncludes s.column (sr.schema.table ++ ".") = false) ∧
        (∀ rel' ∈ rels, sr.org_column ≠ rel'))
    (h : MySQL.addRelations ctx opts (some rec) = (tr, .ok (rec1, opts1))) :
    opts1 = opts ∧
    MySQL.addRelations ctx opts1 (some rec1) = (tr, .ok (rec1, opts)) := by
  unfold MySQL.addRelations at h
  rw [hr] at h
  rcases rels with _ | ⟨r0, rs0⟩
  · dsimp only [] at h
    simp only [Prod.mk.injEq, Except.ok.injEq] at h
    obtain ⟨htr, hrec, hopts⟩ := h
    refine ⟨hopts.symm, ?_⟩
    unfold MySQL.addRelations
    rw [← hopts, hr]
    dsimp only []
    rw [htr]
  · dsimp only [] at h
    have hH : ∀ rel ∈ r0 :: rs0, ∀ sr, MySQL.relLookup opts.schema rel = some sr →
        MySQL.mutateOpts opts sr.schema.table = opts ∧
        ∀ rel' ∈ r0 :: rs0, sr.org_column ≠ rel' := by
      intro rel hm sr hsr
      obtain ⟨w1, w2, w3⟩ := hW rel hm sr hsr
      exact ⟨mutateOpts_id opts sr.schema.table w1 w2, w3⟩
    obtain ⟨ho, hl2⟩ := addRelLoop_idem ctx (r0 :: rs0) opts rec tr rec1 opts1 hnd hH h
    refine ⟨ho, ?_⟩
    unfold MySQL.addRelations
    rw [ho, hr]
    dsimp only []
    exact hl2

/-- Counterexample to C5 as stated: expanding the same record twice with the
same options object is not idempotent.  A relation-qualified filter
(`orders.amount > 100`) is stripped in place by the first expansion
(`opts5` becomes `opts5m`), so the second expansion's child query drops the
filter: the nested `orders` data grows from 1 row to 2. -/
theorem claim5_cex :
    MySQL.addRelations ctx5 opts5 (some userRow) =
      ([count5a, sel5a], .ok (rec5a, opts5m)) ∧
    MySQL.addRelations ctx5 opts5m (some rec5a) =
      ([count5b, sel5b], .ok (rec5c, opts5m)) ∧
    jsArrLen (recGet rec5a "orders") = 1 ∧
    jsArrLen (recGet rec5c "orders") = 2 :=
  ⟨rfl, rfl, rfl, rfl⟩

/-- Witness for C5 (amended): Scenario A (no relation-qualified filters) is
idempotent — the second expansion reproduces the record, trace and options. -/
theorem claim5_witness :
    MySQL.addRelations ctxA optsA (some userRow) = (trA, .ok (recA1, optsA)) ∧
    MySQL.addRelations ctxA optsA (some recA1) = (trA, .ok (recA1, optsA)) := by
  have hW : ∀ rel ∈ ["orders"], ∀ sr,
      MySQL.relLookup optsA.schema rel = some sr →
      (∀ w ∈ optsA.where_.getD [],
         jsIncludes w.column (sr.schema.table ++ ".") = false) ∧
      (∀ s ∈ optsA.sort.getD [],
         jsIncludes s.column (sr.schema.table ++ ".") = false) ∧
      (∀ rel' ∈ ["orders"], sr.org_column ≠ rel') := by
    intro rel hm sr hsr
    simp only [List.mem_singleton] at hm
    subst hm
    rw [show MySQL.relLookup optsA.schema "orders" =
        some ⟨"orders", "user_id", "users", "id", ordersSchema⟩ from rfl] at hsr
    injection hsr with hsr'
    subst hsr'
    refine ⟨?_, ?_, ?_⟩ <;> decide
  have h := claim5_expansion_idem ctxA optsA userRow recA1 ["orders"] trA optsA
    rfl (by simp) hW rfl
  exact ⟨rfl, h.2⟩

/-- With no `relations` key (as in the child options literal), `addRelations`
returns its record untouched. -/
theorem addRelations_no_relations (ctx : Ctx) (opts : DatabaseFindOptions)
    (r : Record) (h : opts.relations = none) :
    MySQL.addRelations ctx opts (some r) = ([], .ok (r, opts)) := by
  unfold MySQL.addRelations
  rw [h]

/-- The per-row expansion fold is the identity when no relations were
requested. -/
theorem findManyRows_no_relations (ctx : Ctx) :
    ∀ (rows : List Record) (opts : DatabaseFindOptions),
      opts.relations = none →
      MySQL.findManyRows ctx rows opts = ([], .ok (rows, opts))
  | [], _, _ => rfl
  | r :: rs, opts, h => by
    unfold MySQL.findManyRows
    rw [addRelations_no_relations ctx opts r h]
    dsimp only []
    rw [findManyRows_no_relations ctx rs opts h]
    rfl

/-- Justification of the `findManyFlat` specialisation used for the child
call inside `addRelations`: on options without a `relations` key — the only
shape `addRelations` ever builds for its child query — `findMany` and
`findManyFlat` agree exactly. -/
theorem findMany_eq_flat_of_no_relations (ctx : Ctx) (opts : DatabaseFindOptions)
    (h : opts.relations = none) :
    MySQL.findMany ctx opts = MySQL.findManyFlat ctx opts := by
  unfold MySQL.findMany MySQL.findManyFlat
  rcases htot : MySQL.findTotalRecords ctx opts with ⟨tr0, e | total⟩
  · rfl
  · rcases hf : MySQL.find opts with e | ⟨cmd0, opts1⟩
    · rfl
    · have hrel1 : opts1.relations = none := by
        obtain ⟨-, -, -, hrel, -, -, -⟩ := find_ok_components opts cmd0 opts1 hf
        rw [hrel, h]
      dsimp only []
      have hrel2 : ({ opts1 with limit := some (MySQL.limitDefaulted ctx opts1), offset := some (MySQL.offsetDefaulted opts1) } : DatabaseFindOptions).relations = none := hrel1
      rw [findManyRows_no_relations ctx _ _ hrel2]
      simp
